import Mathlib

set_option maxRecDepth 100000

/-!
Shallow embedding of the scaling-journey JWT authentication service.

Embedded source files:
  - src/unnamed/part_000 : Express server (PostgreSQL and SQLite variants),
    auto-seed on startup, seedInitialUsers, manual seed script (seedUsers,
    checkUsersTable) with the five-account roster.
  - src/unnamed/part_001 : middleware/authMiddleware.js (authenticateToken,
    requireRole, generateToken).
  - src/database.js : dual-backend data-access shim (executeSQLite,
    convertPostgreSQLToSQLite, convertMySQLToSQLite, transactions).

External libraries (bcryptjs, jsonwebtoken, the sqlite3 and node-postgres
drivers) are not part of the repository; they are modelled here by small
executable definitions whose doc comments state exactly which documented
library behavior they capture.  One-wayness of the password hash is not
modelled (it is irrelevant to the verified properties); hash freshness is
modelled by a salt counter.
-/

/-- Model of a JavaScript value as it occurs in a JSON request body or in a
driver result cell: undefined, null, booleans, numbers (integral model,
NaN not modelled) and strings. -/
inductive JsVal where
  | undef
  | null
  | bool (b : Bool)
  | num (n : Int)
  | str (s : String)
deriving DecidableEq

/-- JavaScript truthiness: undefined, null, false, 0 and the empty string are
falsy; every other modelled value is truthy. -/
def JsVal.truthy : JsVal → Bool
  | .undef => false
  | .null => false
  | .bool b => b
  | .num n => n != 0
  | .str s => s != ""

/-- JavaScript strict equality (the === operator) on the modelled values:
true only for operands of the same type with equal payloads. -/
def jsStrictEq : JsVal → JsVal → Bool
  | .undef, .undef => true
  | .null, .null => true
  | .bool a, .bool b => a == b
  | .num a, .num b => a == b
  | .str a, .str b => a == b
  | _, _ => false

/-- Model of a bcryptjs hash value (external library).  The real library
produces a salted text value; compare(plaintext, hash) succeeds
exactly when the hash was derived from that plaintext.  The model keeps the
salt and the originating plaintext as fields; one-wayness is not modelled,
and distinct salts yield distinct hash values, which models the freshness of
a newly computed hash. -/
structure BcryptHash where
  salt : Nat
  plain : String
deriving DecidableEq

/-- Model of bcrypt.compare(plaintext, hash) for a string plaintext:
true exactly when the hash was derived from the plaintext. -/
def bcryptCompareStr (p : String) (h : BcryptHash) : Bool :=
  p == h.plain

/-- Model of bcrypt.compare applied to a request-body value: the login flow
only ever reaches the comparison with a truthy value; a string compares as
above and a non-string value never verifies in this model. -/
def bcryptCompare (v : JsVal) (h : BcryptHash) : Bool :=
  match v with
  | .str s => bcryptCompareStr s h
  | _ => false

/-- Row of the USERS table as the queries of part_000 read it.  The stored
password hash is a BcryptHash model value; isActive is the boolean column
(stored as 1/0 on the embedded backend, read back truthy/falsy). -/
structure UserRow where
  id : Nat
  username : String
  password_hash : BcryptHash
  role : String
  email : String
  firstName : String
  lastName : String
  isActive : Bool
deriving DecidableEq

/-- Public-safe subset of a user row returned by the login endpoint
(part_000 lines 622 to 634): id, username, role, email, firstName, lastName.
There is no password hash field in this type, so a success response can
never carry the stored hash. -/
structure PublicUser where
  id : Nat
  username : String
  role : String
  email : String
  firstName : String
  lastName : String
deriving DecidableEq

/-- Projection of a user row to its public-safe subset, as built literally in
the success branch of the login handler. -/
def publicOf (u : UserRow) : PublicUser :=
  ⟨u.id, u.username, u.role, u.email, u.firstName, u.lastName⟩

/-- Claims a signed token carries (part_001 generateToken): id, username,
role, email. -/
structure JwtPayload where
  id : Nat
  username : String
  role : String
  email : String
deriving DecidableEq

/-- Model of a signed token produced by jwt.sign (external library): the
payload together with the secret it was signed with standing in for the
signature.  Expiry is not modelled; an expired or tampered token is modelled
as one that fails verification. -/
structure JwtToken where
  payload : JwtPayload
  sig : String
deriving DecidableEq

/-- Model of jwt.sign(payload, secret): records the payload and signature. -/
def jwtSign (p : JwtPayload) (secret : String) : JwtToken := ⟨p, secret⟩

/-- Model of jwt.verify for an already parsed token value: decoding succeeds
exactly when the token was signed with the same shared secret, and then
yields the embedded claims. -/
def jwtVerifyDecode (secret : String) (t : JwtToken) : Option JwtPayload :=
  if t.sig == secret then some t.payload else none

/-- generateToken from part_001 lines 52 to 63 (identical copy in part_000
lines 476 to 487): signs the payload with fields id, username, role, email
taken from the user row, under the shared secret. -/
def generateToken (secret : String) (u : UserRow) : JwtToken :=
  jwtSign ⟨u.id, u.username, u.role, u.email⟩ secret

/-- Comparison of a bound statement parameter against a TEXT column, as the
embedded backend performs it (driver model): a bound string compares by
string equality; a bound number or boolean is converted to its text form by
TEXT affinity before comparison; a bound null or undefined compares equal to
nothing. -/
def jsParamMatchesText (v : JsVal) (col : String) : Bool :=
  match v with
  | .str s => col == s
  | .num n => col == toString n
  | .bool b => col == (if b then "1" else "0")
  | .undef => false
  | .null => false

/-- Lookup performed by the login handler (part_000 line 597, and line 208 in
the PostgreSQL variant): SELECT ... FROM USERS WHERE username = ? OR
email = ?, both placeholders bound to the request username field.  Rows come
back in table order; the handler uses the first. -/
def lookupByIdentifier (db : List UserRow) (v : JsVal) : List UserRow :=
  db.filter (fun r => jsParamMatchesText v r.username || jsParamMatchesText v r.email)

/-- Outcomes of the login handler, one constructor per response it can
produce (the catch-all 500 arises only from a thrown storage or hashing
error, which this pure model does not produce). -/
inductive LoginResult where
  | badRequest
  | invalidCredentials
  | accountDeactivated
  | success (token : JwtToken) (user : PublicUser)
deriving DecidableEq

/-- HTTP status of each login outcome as the handler sends it. -/
def loginStatus : LoginResult → Nat
  | .badRequest => 400
  | .invalidCredentials => 401
  | .accountDeactivated => 401
  | .success _ _ => 200

/-- True exactly for the 200 success outcome. -/
def LoginResult.isSuccess : LoginResult → Bool
  | .success _ _ => true
  | _ => false

/-- Login handler, POST /api/auth/login, from part_000 lines 584 to 641
(SQLite variant; the PostgreSQL variant at lines 195 to 252 has the identical
flow with $1 placeholders).  Direct translation:
  if (!username || !password) return 400;
  users := lookup by identifier; if none: 401 invalid credentials;
  user := users[0]; if (!user.isActive) 401 account deactivated;
  if (!await bcrypt.compare(password, user.password_hash)) 401 invalid;
  else 200 with generateToken(user) and the public-safe subset.
The bcrypt comparison is passed in as a parameter cmp so that theorems can
quantify over every possible hash verifier. -/
def login (cmp : JsVal → BcryptHash → Bool) (secret : String) (db : List UserRow)
    (username password : JsVal) : LoginResult :=
  if !username.truthy || !password.truthy then
    .badRequest
  else
    match lookupByIdentifier db username with
    | [] => .invalidCredentials
    | user :: _ =>
      if user.isActive = false then .accountDeactivated
      else if cmp password user.password_hash = false then .invalidCredentials
      else .success (generateToken secret user) (publicOf user)

/-- Split of a character list at every single space character, as the
JavaScript split with a one-space separator behaves: the empty text gives one
empty part, and adjacent separators give empty parts. -/
def splitOnSpace : List Char → List (List Char)
  | [] => [[]]
  | c :: cs =>
    if c == ' ' then [] :: splitOnSpace cs
    else
      match splitOnSpace cs with
      | [] => [[c]]
      | r :: rs => (c :: r) :: rs

/-- Token extraction of authenticateToken (part_001 lines 15 and 16):
  const token = authHeader && authHeader.split(space)[1]
followed by the falsiness check.  A missing header, an empty header, a header
without a second space-separated part, or an empty second part all leave a
falsy token, modelled as none. -/
def extractToken (authHeader : Option String) : Option String :=
  match authHeader with
  | none => none
  | some h =>
    if h == "" then none
    else
      match (splitOnSpace h.data).get? 1 with
      | none => none
      | some t => if t.isEmpty then none else some (String.mk t)

/-- Terminal outcomes of the middleware chain authenticateToken then
requireRole, from part_001. -/
inductive GateOutcome where
  | reject401NoToken
  | reject403InvalidToken
  | reject403Insufficient (required : List String) (current : Option String)
  | proceed (user : JwtPayload)
deriving DecidableEq

/-- HTTP status of each gate outcome; none means the handler proceeds. -/
def gateStatus : GateOutcome → Option Nat
  | .reject401NoToken => some 401
  | .reject403InvalidToken => some 403
  | .reject403Insufficient _ _ => some 403
  | .proceed _ => none

/-- requireRole from part_001 lines 36 to 47: rejects with 403 when req.user
is unset or its role is not in the required list, exposing the required list
and the actual role in the diagnostic; otherwise the handler proceeds. -/
def requireRole (roles : List String) (user : Option JwtPayload) : GateOutcome :=
  match user with
  | none => .reject403Insufficient roles none
  | some u =>
    if roles.contains u.role then .proceed u
    else .reject403Insufficient roles (some u.role)

/-- Composition authenticateToken then requireRole as the protected routes of
part_000 mount them.  verifyTok models jwt.verify under the shared secret:
none for any token string failing signature or expiry verification. -/
def accessGate (verifyTok : String → Option JwtPayload) (roles : List String)
    (authHeader : Option String) : GateOutcome :=
  match extractToken authHeader with
  | none => .reject401NoToken
  | some t =>
    match verifyTok t with
    | none => .reject403InvalidToken
    | some u => requireRole roles (some u)

/-- Backend selector of the data-access shim (database.js): the networked
PostgreSQL backend or the embedded SQLite backend. -/
inductive Backend where
  | postgres
  | sqlite
deriving DecidableEq

/-- Value of the COUNT(*) cell as each driver delivers it to JavaScript
(driver model): the sqlite3 driver yields the count as a number, while
node-postgres parses the int8 result of COUNT(*) as a decimal string, its
documented default for 64-bit integers. -/
def countCell : Backend → Nat → JsVal
  | .sqlite, n => .num n
  | .postgres, n => .str (toString n)

/-- Observable actions of the startup seeding routine. -/
inductive StartupAction where
  | createdTable
  | seeded
  | skippedWithLog (count : JsVal)
deriving DecidableEq

/-- autoSeedOnStartup from part_000 lines 16 to 46 (the copy at lines 355 to
385 is textually identical; the backend only changes what db.execute returns
for the COUNT query).  Direct translation: if the USERS table is absent,
create it and seed; otherwise read recordCount = rows[0].count and compare it
with strict equality, recordCount === 0: seed on strict equality with the
number 0, otherwise log the count and skip. -/
def autoSeedOnStartup (b : Backend) (tableExists : Bool) (rowCount : Nat) :
    List StartupAction :=
  if tableExists = false then
    [StartupAction.createdTable, StartupAction.seeded]
  else
    let recordCount := countCell b rowCount
    if jsStrictEq recordCount (JsVal.num 0) then [StartupAction.seeded]
    else [StartupAction.skippedWithLog recordCount]

/-- Environment of one run of seedInitialUsers (part_000 lines 104 to 131):
whether each account write (hash plus upsert, the body of the inner try)
succeeds, and whether the COMMIT statement succeeds.  The BEGIN call precedes
the try block; the run below models executions in which the transaction was
opened. -/
structure SeedEnv where
  writeOk : String → Bool
  commitOk : Bool

/-- Observable events of one run of seedInitialUsers. -/
inductive SeedEvent where
  | began
  | wrote (u : String)
  | logFail (u : String)
  | commitCall
  | rollbackCall
deriving DecidableEq

/-- Usernames of the three-account roster seeded on startup (part_000 lines
75 to 100 and 414 to 439). -/
def roster3names : List String := ["admin", "driver1", "customer1"]

/-- Per-account loop of seedInitialUsers: each account write sits in its own
try block, so a failing write is logged and the loop continues with the next
account. -/
def seedLoop (writeOk : String → Bool) : List String → List SeedEvent
  | [] => []
  | u :: rest =>
    (if writeOk u then SeedEvent.wrote u else SeedEvent.logFail u) :: seedLoop writeOk rest

/-- Trace and outcome of one run of seedInitialUsers (part_000 lines 104 to
131): await beginTransaction; try (loop over accounts with per-account
catch-and-log; await commit) catch (await rollback; throw).  In the model
only the commit can throw inside the outer try, so the catch branch fires
exactly when the commit fails; the rollback then runs and the error
propagates, reported as Except.error. -/
def seedInitialUsersRun (env : SeedEnv) : List SeedEvent × Except Unit Unit :=
  let body := seedLoop env.writeOk roster3names
  if env.commitOk then
    (SeedEvent.began :: body ++ [SeedEvent.commitCall], Except.ok ())
  else
    (SeedEvent.began :: body ++ [SeedEvent.commitCall, SeedEvent.rollbackCall],
      Except.error ())

/-- Roster account as the seed scripts list them: username, plaintext
password, role, email, first and last name. -/
structure RosterUser where
  username : String
  password : String
  role : String
  email : String
  firstName : String
  lastName : String
deriving DecidableEq

/-- Three-account roster of seedInitialUsers (part_000 lines 75 to 100, same
literal at lines 414 to 439). -/
def roster3 : List RosterUser :=
  [⟨"admin", "admin123", "admin", "admin@example.com", "Admin", "User"⟩,
   ⟨"driver1", "driver123", "driver", "driver1@example.com", "John", "Driver"⟩,
   ⟨"customer1", "customer123", "customer", "customer1@example.com", "Jane", "Customer"⟩]

/-- Five-account roster of the manual seed script (part_000 lines 731 to
772). -/
def roster5 : List RosterUser :=
  [⟨"admin", "admin123", "admin", "admin@example.com", "Admin", "User"⟩,
   ⟨"driver1", "driver123", "driver", "driver1@example.com", "John", "Driver"⟩,
   ⟨"customer1", "customer123", "customer", "customer1@example.com", "Jane", "Customer"⟩,
   ⟨"dispatcher1", "dispatch123", "dispatcher", "dispatcher1@example.com", "Mike", "Dispatcher"⟩,
   ⟨"support1", "support123", "support", "support1@example.com", "Sarah", "Support"⟩]

/-- State of the credential store as the seed scripts observe it: table
existence, the USERS rows in table order, the next backend-assigned id, and
the salt counter of the bcrypt model (each hashing call consumes one fresh
salt). -/
structure DbState where
  tableExists : Bool
  rows : List UserRow
  nextId : Nat
  saltCtr : Nat
deriving DecidableEq

/-- One upsert of seedInitialUsers, SQLite variant (part_000 lines 450 to
457): INSERT OR REPLACE keyed on the id of the existing row with the same
username (COALESCE of a subselect, NULL when absent).  Absent username: a new
row with a fresh id is appended; present: that row is replaced in place,
keeping its id, with a freshly hashed password, the roster role, email, names
and isActive 1.  Hashing always runs first and consumes a fresh salt. -/
def upsertRoster (s : DbState) (u : RosterUser) : DbState :=
  let h : BcryptHash := ⟨s.saltCtr, u.password⟩
  let s1 : DbState := { s with saltCtr := s.saltCtr + 1 }
  match s1.rows.filter (fun r => r.username == u.username) with
  | [] =>
    { s1 with
      rows := s1.rows ++
        [⟨s1.nextId, u.username, h, u.role, u.email, u.firstName, u.lastName, true⟩],
      nextId := s1.nextId + 1 }
  | r0 :: _ =>
    { s1 with
      rows := s1.rows.map (fun r =>
        if r.username == u.username then
          ⟨r0.id, u.username, h, u.role, u.email, u.firstName, u.lastName, true⟩
        else r) }

/-- State effect of seedInitialUsers (SQLite variant) in an execution where
every write succeeds: fold the upsert over the three-account roster. -/
def seedInitialUsersState (s : DbState) : DbState :=
  roster3.foldl upsertRoster s

/-- Outcome reported by the manual seed script seedUsers: an early skip, or a
completed pass reporting whether at least one account was processed (with the
error-free execution model, errorCount is zero). -/
inductive SeedOutcome where
  | skipped
  | completed (allOk : Bool)
deriving DecidableEq

/-- checkUsersTable from part_000 lines 785 to 804: if the USERS table is
absent, create it and report no records; otherwise report hasRecords as
recordCount > 0 together with the count.  The greater-than comparison coerces
a string count, so it behaves the same under both drivers. -/
def checkUsersTable (s : DbState) : DbState × Bool × Nat :=
  if s.tableExists = false then ({ s with tableExists := true }, false, 0)
  else (s, 0 < s.rows.length, s.rows.length)

/-- Per-account body of the manual seed loop (part_000 lines 854 to 892),
threading the success counter: look up an existing row by username or email;
if present and force, update that row in place with a freshly hashed password,
role, names and isActive TRUE (email and username untouched); if present and
not force, skip the account; if absent, insert a new row with a fresh id and
a freshly hashed password. -/
def seedOne (force : Bool) (acc : DbState × Nat) (u : RosterUser) : DbState × Nat :=
  let s := acc.1
  let successCount := acc.2
  match s.rows.filter (fun r => r.username == u.username || r.email == u.email) with
  | [] =>
    let h : BcryptHash := ⟨s.saltCtr, u.password⟩
    ({ s with
        rows := s.rows ++
          [⟨s.nextId, u.username, h, u.role, u.email, u.firstName, u.lastName, true⟩],
        nextId := s.nextId + 1,
        saltCtr := s.saltCtr + 1 }, successCount + 1)
  | _ :: _ =>
    if force then
      let h : BcryptHash := ⟨s.saltCtr, u.password⟩
      ({ s with
          rows := s.rows.map (fun r =>
            if r.username == u.username then
              { r with password_hash := h, role := u.role, firstName := u.firstName,
                       lastName := u.lastName, isActive := true }
            else r),
          saltCtr := s.saltCtr + 1 }, successCount + 1)
    else (s, successCount)

/-- seedUsers from part_000 lines 832 to 909 in an execution where every
statement succeeds: check the table (creating it when absent); with records
present and no force flag, return early reporting a skip; otherwise, under
force, first DELETE FROM USERS, then run the per-account loop over the
five-account roster inside the transaction and report completion (the code
returns successCount > 0 and errorCount === 0, and errorCount is zero in the
error-free model). -/
def seedUsers (force : Bool) (s : DbState) : DbState × SeedOutcome :=
  match checkUsersTable s with
  | (s1, hasRecords, _) =>
    if hasRecords && !force then (s1, SeedOutcome.skipped)
    else
      let s2 : DbState := if force then { s1 with rows := [] } else s1
      let out := roster5.foldl (seedOne force) (s2, 0)
      (out.1, SeedOutcome.completed (0 < out.2))

/-- Case-insensitive prefix test on character lists (ASCII case folding, as
the i regex flag behaves on the ASCII-only patterns used by the shim). -/
def isPrefixCI : List Char → List Char → Bool
  | [], _ => true
  | _ :: _, [] => false
  | p :: ps, c :: cs => (p.toLower == c.toLower) && isPrefixCI ps cs

/-- Fuelled scanner of a global case-insensitive fixed-string replacement, as
a JavaScript replace with a gi-flagged literal pattern behaves: scan left to
right; on a match emit the replacement and continue after the matched region
without rescanning the replacement; otherwise keep one character and move on.
The fuel only bounds recursion; any fuel at least the length of the text
gives the full scan, and the definitions below always pass the length. -/
def replaceAuxCI (pat rep : List Char) : Nat → List Char → List Char
  | _, [] => []
  | 0, s => s
  | fuel + 1, c :: cs =>
    if !pat.isEmpty && isPrefixCI pat (c :: cs) then
      rep ++ replaceAuxCI pat rep fuel (List.drop (pat.length - 1) cs)
    else
      c :: replaceAuxCI pat rep fuel cs

/-- Case-insensitive global replacement of a fixed pattern in a string. -/
def replaceCI (s pat rep : String) : String :=
  String.mk (replaceAuxCI pat.data rep.data s.data.length s.data)

/-- Whether a fixed pattern occurs case-insensitively anywhere in a text. -/
def occursCI (pat : List Char) : List Char → Bool
  | [] => isPrefixCI pat []
  | c :: cs => isPrefixCI pat (c :: cs) || occursCI pat cs

/-- True when the string contains, case-insensitively, none of the listed
patterns. -/
def freeOfAll (pats : List String) (s : String) : Bool :=
  pats.all (fun p => !(occursCI p.data s.data))

/-- convertPostgreSQLToSQLite from database.js lines 352 to 373: the sequence
of case-insensitive global substitutions the shim applies to a canonical
dialect CREATE TABLE statement before running it on the embedded backend,
one replaceCI per source replace call, in source order. -/
def convertPostgreSQLToSQLite (postgresSql : String) : String :=
  let s1 := replaceCI postgresSql "SERIAL PRIMARY KEY" "INTEGER PRIMARY KEY"
  let s2 := replaceCI s1 "TIMESTAMP WITH TIME ZONE" "DATETIME"
  let s3 := replaceCI s2 "TIMESTAMP WITHOUT TIME ZONE" "DATETIME"
  let s4 := replaceCI s3 "TIMESTAMP DEFAULT CURRENT_TIMESTAMP" "DATETIME DEFAULT CURRENT_TIMESTAMP"
  let s5 := replaceCI s4 "ON UPDATE CURRENT_TIMESTAMP" ""
  let s6 := replaceCI s5 "BOOLEAN DEFAULT TRUE" "BOOLEAN DEFAULT 1"
  let s7 := replaceCI s6 "BOOLEAN DEFAULT FALSE" "BOOLEAN DEFAULT 0"
  s7

/-- convertMySQLToSQLite from database.js lines 140 to 153, same scheme for
the MySQL-variant class. -/
def convertMySQLToSQLite (mysqlSql : String) : String :=
  let s1 := replaceCI mysqlSql "AUTO_INCREMENT" "AUTOINCREMENT"
  let s2 := replaceCI s1 "ON UPDATE CURRENT_TIMESTAMP" ""
  let s3 := replaceCI s2 "DEFAULT CHARSET=utf8mb4 COLLATE=utf8mb4_unicode_ci" ""
  let s4 := replaceCI s3 "ENGINE=InnoDB" ""
  let s5 := replaceCI s4 "TIMESTAMP DEFAULT CURRENT_TIMESTAMP" "DATETIME DEFAULT CURRENT_TIMESTAMP"
  s5

/-- The substitution patterns the claim enumerates for the embedded dialect
translation, stated following the words of the specification: the auto
increment primary key form, TIMESTAMP WITH TIME ZONE, the boolean TRUE and
FALSE defaults, and the ON UPDATE CURRENT_TIMESTAMP clause. -/
def claimedPatterns : List String :=
  ["SERIAL PRIMARY KEY", "TIMESTAMP WITH TIME ZONE", "BOOLEAN DEFAULT TRUE",
   "BOOLEAN DEFAULT FALSE", "ON UPDATE CURRENT_TIMESTAMP"]

/-- All seven patterns the code substitutes, in source order. -/
def codePatterns : List String :=
  ["SERIAL PRIMARY KEY", "TIMESTAMP WITH TIME ZONE", "TIMESTAMP WITHOUT TIME ZONE",
   "TIMESTAMP DEFAULT CURRENT_TIMESTAMP", "ON UPDATE CURRENT_TIMESTAMP",
   "BOOLEAN DEFAULT TRUE", "BOOLEAN DEFAULT FALSE"]

/-- CREATE TABLE statement of createUsersTable, PostgreSQL variant (part_000
lines 52 to 65), with the whitespace of the template literal. -/
def usersCreateTableSQL : String :=
  "\n    CREATE TABLE USERS (\n      id SERIAL PRIMARY KEY,\n      username VARCHAR(50) UNIQUE NOT NULL,\n      password_hash VARCHAR(255) NOT NULL,\n      role VARCHAR(20) NOT NULL,\n      email VARCHAR(100) UNIQUE NOT NULL,\n      firstName VARCHAR(50),\n      lastName VARCHAR(50),\n      isActive BOOLEAN DEFAULT TRUE,\n      createdAt TIMESTAMP WITH TIME ZONE DEFAULT CURRENT_TIMESTAMP,\n      updatedAt TIMESTAMP WITH TIME ZONE DEFAULT CURRENT_TIMESTAMP\n    )\n  "

/-- The same statement in the embedded dialect, the expected image of the
translation. -/
def usersCreateTableSQLite : String :=
  "\n    CREATE TABLE USERS (\n      id INTEGER PRIMARY KEY,\n      username VARCHAR(50) UNIQUE NOT NULL,\n      password_hash VARCHAR(255) NOT NULL,\n      role VARCHAR(20) NOT NULL,\n      email VARCHAR(100) UNIQUE NOT NULL,\n      firstName VARCHAR(50),\n      lastName VARCHAR(50),\n      isActive BOOLEAN DEFAULT 1,\n      createdAt DATETIME DEFAULT CURRENT_TIMESTAMP,\n      updatedAt DATETIME DEFAULT CURRENT_TIMESTAMP\n    )\n  "

/-- Whitespace test of the JavaScript trim on the ASCII whitespace actually
occurring in SQL text. -/
def jsIsSpace (c : Char) : Bool :=
  c == ' ' || c == '\t' || c == '\n' || c == '\r'

/-- JavaScript trim: strip whitespace from both ends. -/
def jsTrim (s : List Char) : List Char :=
  ((s.dropWhile jsIsSpace).reverse.dropWhile jsIsSpace).reverse

/-- Case-sensitive prefix test on character lists. -/
def isPrefixOfChars : List Char → List Char → Bool
  | [], _ => true
  | _ :: _, [] => false
  | p :: ps, c :: cs => p == c && isPrefixOfChars ps cs

/-- Classifier of executeSQLite (database.js line 294, identical at line 89):
trim the statement, uppercase it, and test whether it starts with SELECT. -/
def isSelectStatement (sql : String) : Bool :=
  isPrefixOfChars "SELECT".data ((jsTrim sql.data).map Char.toUpper)

/-- Write descriptor executeSQLite builds from the callback context of
connection.run: lastID and changes. -/
structure WriteDescriptor where
  insertId : Nat
  affectedRows : Nat
deriving DecidableEq

/-- executeSQLite from database.js lines 291 to 312 (identical copy at lines
86 to 107): a statement classified as SELECT resolves to the row array the
driver returns for it; every other statement is run as a write and resolves
to a single-element array holding the write descriptor.  allFn and runFn
model the driver callbacks connection.all and connection.run. -/
def executeSQLite {α : Type} (allFn : String → List α)
    (runFn : String → WriteDescriptor) (sql : String) :
    List α ⊕ List WriteDescriptor :=
  if isSelectStatement sql then Sum.inl (allFn sql)
  else Sum.inr [runFn sql]

/-- If a hash value is absent from the text, the fuelled scanner returns the
text unchanged, whatever the fuel. -/
theorem replaceAuxCI_of_not_occurs (pat rep : List Char) :
    ∀ (fuel : Nat) (s : List Char), occursCI pat s = false →
      replaceAuxCI pat rep fuel s = s := by
  intro fuel
  induction fuel with
  | zero =>
    intro s _
    cases s <;> rfl
  | succ n ih =>
    intro s h
    cases s with
    | nil => rfl
    | cons c cs =>
      rw [occursCI, Bool.or_eq_false_iff] at h
      rw [replaceAuxCI, h.1, Bool.and_false, if_neg (by simp), ih cs h.2]

/-- String-level form: a pattern that does not occur is not replaced. -/
theorem replaceCI_of_not_occurs (s pat rep : String)
    (h : occursCI pat.data s.data = false) : replaceCI s pat rep = s := by
  unfold replaceCI
  rw [replaceAuxCI_of_not_occurs pat.data rep.data s.data.length s.data h]

/-- Two model hash values with distinct salts are distinct. -/
theorem BcryptHash.ne_of_salt_ne {h1 h2 : BcryptHash} (h : h1.salt ≠ h2.salt) :
    h1 ≠ h2 := by
  intro he
  exact h (congrArg BcryptHash.salt he)

/-- C10: on the embedded backend, executeSQLite classifies a statement solely
by whether its trimmed text begins case-insensitively with SELECT: exactly
those statements resolve to the row array the driver returns, and every other
statement, including reads that start with another keyword such as PRAGMA or
WITH, resolves to the single-element write-descriptor array and never to
result rows. -/
theorem C10_executeSQLite_classification {α : Type} (allFn : String → List α)
    (runFn : String → WriteDescriptor) (sql : String) :
    (executeSQLite allFn runFn sql = Sum.inl (allFn sql) ↔
      isSelectStatement sql = true) ∧
    (executeSQLite allFn runFn sql = Sum.inr [runFn sql] ↔
      isSelectStatement sql = false) ∧
    isSelectStatement "PRAGMA table_info(USERS)" = false ∧
    isSelectStatement "WITH t AS (SELECT 1) SELECT x FROM t" = false ∧
    isSelectStatement "  select name FROM sqlite_master" = true := by
  refine ⟨?_, ?_, by decide, by decide, by decide⟩ <;>
    cases h : isSelectStatement sql <;> simp [executeSQLite, h]

/-- C10 witness: a PRAGMA statement resolves to the write descriptor. -/
theorem C10_witness :
    executeSQLite (fun _ => ([] : List Unit)) (fun _ => ⟨0, 0⟩)
      "PRAGMA table_info(USERS)" = Sum.inr [⟨0, 0⟩] :=
  (C10_executeSQLite_classification (fun _ => ([] : List Unit)) (fun _ => ⟨0, 0⟩)
    "PRAGMA table_info(USERS)").2.1.mpr (by decide)

/-- C2: per protected request the access gate resolves to exactly one of four
terminal outcomes: no bearer token extracted gives the 401 rejection; a token
failing verification gives the 403 rejection; a verified token whose role is
not in the required set gives the 403 rejection carrying the required set and
the actual role; a verified token with an allowed role proceeds to the
handler.  No other outcome exists, and the status map sends the rejections to
401, 403 and 403. -/
theorem C2_access_gate_outcomes (verifyTok : String → Option JwtPayload)
    (roles : List String) (authHeader : Option String) :
    (extractToken authHeader = none →
      accessGate verifyTok roles authHeader = GateOutcome.reject401NoToken) ∧
    (∀ t, extractToken authHeader = some t → verifyTok t = none →
      accessGate verifyTok roles authHeader = GateOutcome.reject403InvalidToken) ∧
    (∀ t u, extractToken authHeader = some t → verifyTok t = some u →
      roles.contains u.role = false →
      accessGate verifyTok roles authHeader =
        GateOutcome.reject403Insufficient roles (some u.role)) ∧
    (∀ t u, extractToken authHeader = some t → verifyTok t = some u →
      roles.contains u.role = true →
      accessGate verifyTok roles authHeader = GateOutcome.proceed u) ∧
    (accessGate verifyTok roles authHeader = GateOutcome.reject401NoToken ∨
     accessGate verifyTok roles authHeader = GateOutcome.reject403InvalidToken ∨
     (∃ c, accessGate verifyTok roles authHeader =
        GateOutcome.reject403Insufficient roles c) ∨
     (∃ u, accessGate verifyTok roles authHeader = GateOutcome.proceed u)) ∧
    gateStatus GateOutcome.reject401NoToken = some 401 ∧
    gateStatus GateOutcome.reject403InvalidToken = some 403 ∧
    (∀ req cur, gateStatus (GateOutcome.reject403Insufficient req cur) = some 403) ∧
    (∀ u, gateStatus (GateOutcome.proceed u) = none) := by
  refine ⟨?_, ?_, ?_, ?_, ?_, rfl, rfl, fun _ _ => rfl, fun _ => rfl⟩
  · intro h; simp [accessGate, h]
  · intro t h hv; simp [accessGate, h, hv]
  · intro t u h hv hr
    have hm : u.role ∉ roles := by simpa using hr
    simp [accessGate, h, hv, requireRole, hm]
  · intro t u h hv hr
    have hm : u.role ∈ roles := by simpa using hr
    simp [accessGate, h, hv, requireRole, hm]
  · cases h : extractToken authHeader with
    | none => exact Or.inl (by simp [accessGate, h])
    | some t =>
      cases hv : verifyTok t with
      | none => exact Or.inr (Or.inl (by simp [accessGate, h, hv]))
      | some u =>
        cases hr : roles.contains u.role with
        | false =>
          have hm : u.role ∉ roles := by simpa using hr
          exact Or.inr (Or.inr (Or.inl ⟨some u.role, by simp [accessGate, h, hv, requireRole, hm]⟩))
        | true =>
          have hm : u.role ∈ roles := by simpa using hr
          exact Or.inr (Or.inr (Or.inr ⟨u, by simp [accessGate, h, hv, requireRole, hm]⟩))

/-- C2 witness: a verified token with an allowed role proceeds. -/
theorem C2_witness :
    accessGate
      (fun t => if t == "tok" then some ⟨1, "admin", "admin", "admin@example.com"⟩ else none)
      ["admin"] (some "Bearer tok") =
      GateOutcome.proceed ⟨1, "admin", "admin", "admin@example.com"⟩ :=
  (C2_access_gate_outcomes
    (fun t => if t == "tok" then some ⟨1, "admin", "admin", "admin@example.com"⟩ else none)
    ["admin"] (some "Bearer tok")).2.2.2.1 "tok"
    ⟨1, "admin", "admin", "admin@example.com"⟩ (by decide) (by decide) (by decide)

/-- C9: the missing-field check of the login endpoint uses JavaScript
falsiness, so any falsy username or password field, including the empty
string, the number 0, false, null and an absent field, yields the 400
response for every store and every hash verifier, hence before any lookup or
hash comparison can influence the outcome; in particular no stored account
can be authenticated, nor its existence probed, with an empty-string
password. -/
theorem C9_login_falsy_fields (cmp : JsVal → BcryptHash → Bool) (secret : String)
    (db : List UserRow) (u p : JsVal) :
    (u.truthy = false ∨ p.truthy = false →
      login cmp secret db u p = LoginResult.badRequest) ∧
    (JsVal.truthy (JsVal.str "") = false ∧ JsVal.truthy (JsVal.num 0) = false ∧
      JsVal.truthy (JsVal.bool false) = false ∧ JsVal.truthy JsVal.null = false ∧
      JsVal.truthy JsVal.undef = false) ∧
    login cmp secret db u (JsVal.str "") = LoginResult.badRequest ∧
    (login cmp secret db u (JsVal.str "")).isSuccess = false := by
  have he : JsVal.truthy (JsVal.str "") = false := by decide
  refine ⟨?_, by decide, ?_, ?_⟩
  · rintro (h | h) <;> simp [login, h]
  · simp [login, he]
  · simp [login, he, LoginResult.isSuccess]

/-- C9 witness: a stored account with an empty-string password field in the
request gets the 400 response, not an authentication attempt. -/
theorem C9_witness :
    login bcryptCompare "secret"
      [⟨1, "admin", ⟨0, "admin123"⟩, "admin", "admin@example.com", "Admin", "User", true⟩]
      (JsVal.str "admin") (JsVal.num 0) = LoginResult.badRequest :=
  (C9_login_falsy_fields bcryptCompare "secret"
    [⟨1, "admin", ⟨0, "admin123"⟩, "admin", "admin@example.com", "Admin", "User", true⟩]
    (JsVal.str "admin") (JsVal.num 0)).1 (Or.inr (by decide))

/-- C1: the credential-verification flow returns exactly the outcome the
specification prescribes for every store, every hash verifier and every
string credential pair: a missing field gives 400; an identifier matching
zero records gives the generic 401 invalid-credentials outcome; a matched
record with isActive false gives the 401 account-deactivated outcome
whatever the hash verifier says; a failing hash comparison gives the generic
401 outcome; a match gives 200 carrying the signed token and exactly the
public-safe subset of the record, a value of a type with no hash field. -/
theorem C1_login_flow (cmp : JsVal → BcryptHash → Bool) (secret : String)
    (db : List UserRow) (u p : String) (hu : u ≠ "") (hp : p ≠ "") :
    (lookupByIdentifier db (JsVal.str u) = [] →
      login cmp secret db (JsVal.str u) (JsVal.str p) = LoginResult.invalidCredentials) ∧
    (∀ user rest, lookupByIdentifier db (JsVal.str u) = user :: rest →
      (user.isActive = false →
        login cmp secret db (JsVal.str u) (JsVal.str p) = LoginResult.accountDeactivated) ∧
      (user.isActive = true → cmp (JsVal.str p) user.password_hash = false →
        login cmp secret db (JsVal.str u) (JsVal.str p) = LoginResult.invalidCredentials) ∧
      (user.isActive = true → cmp (JsVal.str p) user.password_hash = true →
        login cmp secret db (JsVal.str u) (JsVal.str p) =
          LoginResult.success (generateToken secret user) (publicOf user))) ∧
    (∀ v, login cmp secret db JsVal.undef v = LoginResult.badRequest) ∧
    (∀ v, login cmp secret db v JsVal.undef = LoginResult.badRequest) ∧
    loginStatus LoginResult.badRequest = 400 ∧
    loginStatus LoginResult.invalidCredentials = 401 ∧
    loginStatus LoginResult.accountDeactivated = 401 ∧
    (∀ t pu, loginStatus (LoginResult.success t pu) = 200) := by
  have htu : (JsVal.str u).truthy = true := by
    simp only [JsVal.truthy, bne_iff_ne, ne_eq]
    exact hu
  have htp : (JsVal.str p).truthy = true := by
    simp only [JsVal.truthy, bne_iff_ne, ne_eq]
    exact hp
  refine ⟨?_, ?_, ?_, ?_, rfl, rfl, rfl, fun _ _ => rfl⟩
  · intro h; simp [login, htu, htp, h]
  · intro user rest h
    refine ⟨?_, ?_, ?_⟩
    · intro ha; simp [login, htu, htp, h, ha]
    · intro ha hc; simp [login, htu, htp, h, ha, hc]
    · intro ha hc; simp [login, htu, htp, h, ha, hc]
  · intro v; simp [login, JsVal.truthy]
  · intro v; simp [login, JsVal.truthy]

/-- C1 witness: the seeded admin row authenticates with its plaintext and
receives the signed token and the public-safe subset. -/
theorem C1_witness :
    login bcryptCompare "secret"
      [⟨1, "admin", ⟨0, "admin123"⟩, "admin", "admin@example.com", "Admin", "User", true⟩]
      (JsVal.str "admin") (JsVal.str "admin123") =
      LoginResult.success
        (generateToken "secret"
          ⟨1, "admin", ⟨0, "admin123"⟩, "admin", "admin@example.com", "Admin", "User", true⟩)
        (publicOf
          ⟨1, "admin", ⟨0, "admin123"⟩, "admin", "admin@example.com", "Admin", "User", true⟩) :=
  ((C1_login_flow bcryptCompare "secret"
      [⟨1, "admin", ⟨0, "admin123"⟩, "admin", "admin@example.com", "Admin", "User", true⟩]
      "admin" "admin123" (by decide) (by decide)).2.1
    ⟨1, "admin", ⟨0, "admin123"⟩, "admin", "admin@example.com", "Admin", "User", true⟩ []
    (by decide)).2.2 rfl (by decide)

/-- C3: evaluation of the startup seeding routine on the decisive inputs.
Under the embedded backend an existing empty USERS table leads to seeding, as
the claim states; under the PostgreSQL backend the driver delivers the
COUNT(*) cell of an empty table as the string 0, the strict-equality test
recordCount === 0 therefore fails, and the routine logs the count and skips
the seed, contradicting the claim that the seed step runs on an existing
empty table under either backend.  An absent table is created and seeded
under both backends, and a populated table is skipped with its count
logged. -/
theorem C3_autoseed_empty_table_eval :
    autoSeedOnStartup Backend.sqlite true 0 = [StartupAction.seeded] ∧
    autoSeedOnStartup Backend.postgres true 0 =
      [StartupAction.skippedWithLog (JsVal.str "0")] ∧
    autoSeedOnStartup Backend.sqlite false 0 =
      [StartupAction.createdTable, StartupAction.seeded] ∧
    autoSeedOnStartup Backend.postgres false 0 =
      [StartupAction.createdTable, StartupAction.seeded] ∧
    autoSeedOnStartup Backend.sqlite true 5 =
      [StartupAction.skippedWithLog (JsVal.num 5)] ∧
    autoSeedOnStartup Backend.postgres true 5 =
      [StartupAction.skippedWithLog (JsVal.str "5")] := by
  decide

/-- C4 counterexample: a canonical-dialect CREATE TABLE statement that
contains none of the substitution tokens enumerated by the claim is
nevertheless changed by the translation, because the code additionally
rewrites the bare TIMESTAMP DEFAULT CURRENT_TIMESTAMP form; so the claim
that all text outside the enumerated substitutions is left unchanged fails
at this input. -/
theorem C4_counterexample :
    freeOfAll claimedPatterns
      "CREATE TABLE T (c TIMESTAMP DEFAULT CURRENT_TIMESTAMP)" = true ∧
    convertPostgreSQLToSQLite
      "CREATE TABLE T (c TIMESTAMP DEFAULT CURRENT_TIMESTAMP)" =
      "CREATE TABLE T (c DATETIME DEFAULT CURRENT_TIMESTAMP)" ∧
    convertPostgreSQLToSQLite
      "CREATE TABLE T (c TIMESTAMP DEFAULT CURRENT_TIMESTAMP)" ≠
      "CREATE TABLE T (c TIMESTAMP DEFAULT CURRENT_TIMESTAMP)" :=
  ⟨by decide, by decide, by decide⟩

/-- C4 amended: the translation consulted by createTable on the embedded
backend is a function of the statement text alone consisting of the
enumerated case-insensitive substitutions plus two further rewrites the
claim omits, TIMESTAMP WITHOUT TIME ZONE and the bare TIMESTAMP DEFAULT
CURRENT_TIMESTAMP form, both to the embedded datetime type; text free of all
seven substitution tokens is left unchanged, and on the fixed schema of the
system the translation produces exactly the embedded-dialect schema. -/
theorem C4_convert_characterization (s : String) :
    (freeOfAll codePatterns s = true → convertPostgreSQLToSQLite s = s) ∧
    convertPostgreSQLToSQLite usersCreateTableSQL = usersCreateTableSQLite ∧
    convertPostgreSQLToSQLite "isActive BOOLEAN DEFAULT FALSE" =
      "isActive BOOLEAN DEFAULT 0" ∧
    convertPostgreSQLToSQLite "id serial primary key" = "id INTEGER PRIMARY KEY" ∧
    convertPostgreSQLToSQLite
      "updatedAt timestamp with time zone ON UPDATE CURRENT_TIMESTAMP" =
      "updatedAt DATETIME " := by
  refine ⟨?_, by decide, by decide, by decide, by decide⟩
  intro h
  simp only [freeOfAll, codePatterns, List.all_cons, List.all_nil, Bool.and_eq_true,
    Bool.not_eq_true', Bool.and_true] at h
  obtain ⟨h1, h2, h3, h4, h5, h6, h7⟩ := h
  simp only [convertPostgreSQLToSQLite]
  rw [replaceCI_of_not_occurs _ _ _ h1, replaceCI_of_not_occurs _ _ _ h2,
    replaceCI_of_not_occurs _ _ _ h3, replaceCI_of_not_occurs _ _ _ h4,
    replaceCI_of_not_occurs _ _ _ h5, replaceCI_of_not_occurs _ _ _ h6,
    replaceCI_of_not_occurs _ _ _ h7]

/-- C4 witness: a statement free of every substitution token passes through
the translation unchanged. -/
theorem C4_witness :
    convertPostgreSQLToSQLite "CREATE TABLE PLAIN (id INT, name VARCHAR(50))" =
      "CREATE TABLE PLAIN (id INT, name VARCHAR(50))" :=
  (C4_convert_characterization "CREATE TABLE PLAIN (id INT, name VARCHAR(50))").1
    (by decide)

/-- The per-account loop emits one wrote or logFail event per listed account
and nothing else. -/
theorem seedLoop_mem_shape (w : String → Bool) (l : List String) (e : SeedEvent)
    (he : e ∈ seedLoop w l) :
    ∃ u, u ∈ l ∧ (e = SeedEvent.wrote u ∨ e = SeedEvent.logFail u) := by
  induction l with
  | nil => simp [seedLoop] at he
  | cons a rest ih =>
    rw [seedLoop] at he
    rcases List.mem_cons.mp he with h | h
    · refine ⟨a, List.mem_cons_self a rest, ?_⟩
      cases hw : w a <;> simp [hw] at h <;> simp [h]
    · obtain ⟨u, hu, hor⟩ := ih h
      exact ⟨u, List.mem_cons_of_mem _ hu, hor⟩

/-- The loop body never contains a rollback invocation. -/
theorem rollback_not_mem_seedLoop (w : String → Bool) (l : List String) :
    SeedEvent.rollbackCall ∉ seedLoop w l := by
  intro h
  obtain ⟨u, _, hor⟩ := seedLoop_mem_shape w l _ h
  rcases hor with h | h <;> exact SeedEvent.noConfusion h

/-- Each listed account contributes its event to the loop body. -/
theorem event_mem_seedLoop (w : String → Bool) (l : List String) (u : String)
    (hu : u ∈ l) :
    (if w u then SeedEvent.wrote u else SeedEvent.logFail u) ∈ seedLoop w l := by
  induction l with
  | nil => simp at hu
  | cons a rest ih =>
    rcases List.mem_cons.mp hu with rfl | h
    · rw [seedLoop]; exact List.mem_cons_self _ _
    · rw [seedLoop]; exact List.mem_cons_of_mem _ (ih h)

/-- C5 counterexample: in an execution where every account write succeeds but
the COMMIT statement itself fails, the seeding pass invokes commit and then,
from the catch branch, also rollback, so it invokes two of the bracket
operations rather than exactly one. -/
theorem C5_counterexample :
    SeedEvent.commitCall ∈ (seedInitialUsersRun ⟨fun _ => true, false⟩).1 ∧
    SeedEvent.rollbackCall ∈ (seedInitialUsersRun ⟨fun _ => true, false⟩).1 ∧
    (seedInitialUsersRun ⟨fun _ => true, false⟩).1.countP
      (fun e => e == SeedEvent.commitCall || e == SeedEvent.rollbackCall) = 2 ∧
    (seedInitialUsersRun ⟨fun _ => true, false⟩).2 = Except.error () :=
  ⟨by decide, by decide, by decide, rfl⟩

/-- C5 amended: per execution of the seeding pass, a failing account write is
logged and iteration continues inside the same transaction; commit is always
invoked; when commit succeeds the run completes normally and rollback is
never invoked; when commit fails, rollback is invoked before the error
propagates, so the transaction is not left open, and in that one case both
bracket operations are invoked, the failed commit followed by rollback. -/
theorem C5_amended_transaction_bracket (env : SeedEnv) :
    (∀ u, u ∈ roster3names → env.writeOk u = false →
      SeedEvent.logFail u ∈ (seedInitialUsersRun env).1) ∧
    (∀ u, u ∈ roster3names →
      SeedEvent.wrote u ∈ (seedInitialUsersRun env).1 ∨
        SeedEvent.logFail u ∈ (seedInitialUsersRun env).1) ∧
    SeedEvent.commitCall ∈ (seedInitialUsersRun env).1 ∧
    (env.commitOk = true →
      (seedInitialUsersRun env).2 = Except.ok () ∧
        SeedEvent.rollbackCall ∉ (seedInitialUsersRun env).1) ∧
    (env.commitOk = false →
      (seedInitialUsersRun env).2 = Except.error () ∧
        SeedEvent.rollbackCall ∈ (seedInitialUsersRun env).1) := by
  refine ⟨?_, ?_, ?_, ?_, ?_⟩
  · intro u hu hw
    have hm := event_mem_seedLoop env.writeOk roster3names u hu
    rw [hw] at hm
    simp only [if_false, Bool.false_eq_true, ite_false] at hm
    cases hc : env.commitOk <;> simp [seedInitialUsersRun, hc, hm]
  · intro u hu
    have hm := event_mem_seedLoop env.writeOk roster3names u hu
    cases hw : env.writeOk u <;> rw [hw] at hm <;>
      simp only [if_true, if_false, Bool.false_eq_true, ite_false, ite_true] at hm
    · exact Or.inr (by cases hc : env.commitOk <;> simp [seedInitialUsersRun, hc, hm])
    · exact Or.inl (by cases hc : env.commitOk <;> simp [seedInitialUsersRun, hc, hm])
  · cases hc : env.commitOk <;> simp [seedInitialUsersRun, hc]
  · intro h
    exact ⟨by simp [seedInitialUsersRun, h],
      by simp [seedInitialUsersRun, h, rollback_not_mem_seedLoop]⟩
  · intro h
    exact ⟨by simp [seedInitialUsersRun, h], by simp [seedInitialUsersRun, h]⟩

/-- C5 witness: with one failing account write and a successful commit, the
failure is logged and the batch still commits. -/
theorem C5_witness :
    SeedEvent.logFail "driver1" ∈
      (seedInitialUsersRun ⟨fun u => !(u == "driver1"), true⟩).1 ∧
    (seedInitialUsersRun ⟨fun u => !(u == "driver1"), true⟩).2 = Except.ok () :=
  ⟨(C5_amended_transaction_bracket ⟨fun u => !(u == "driver1"), true⟩).1 "driver1"
      (by decide) (by decide),
    ((C5_amended_transaction_bracket ⟨fun u => !(u == "driver1"), true⟩).2.2.2.1 rfl).1⟩

/-- C8: the manual seed without force against a table that already contains
rows performs no row-changing write at all: the store state, rows included,
is returned unchanged and the run reports a skip. -/
theorem C8_seed_no_force_skip (s : DbState) (ht : s.tableExists = true)
    (hr : 0 < s.rows.length) :
    seedUsers false s = (s, SeedOutcome.skipped) := by
  simp [seedUsers, checkUsersTable, ht, hr]

/-- C8 witness: a populated single-row store is untouched by the non-forced
seed. -/
theorem C8_witness :
    seedUsers false
      ⟨true, [⟨1, "admin", ⟨0, "admin123"⟩, "admin", "admin@example.com",
        "Admin", "User", true⟩], 2, 1⟩ =
      (⟨true, [⟨1, "admin", ⟨0, "admin123"⟩, "admin", "admin@example.com",
        "Admin", "User", true⟩], 2, 1⟩, SeedOutcome.skipped) :=
  C8_seed_no_force_skip
    ⟨true, [⟨1, "admin", ⟨0, "admin123"⟩, "admin", "admin@example.com",
      "Admin", "User", true⟩], 2, 1⟩ rfl (by decide)

/-- Under force on an existing table, the manual seed deletes every row and
then inserts the five roster accounts with consecutive fresh ids and fresh
salts. -/
theorem seedUsers_force_shape (s : DbState) (ht : s.tableExists = true) :
    seedUsers true s =
      (⟨true,
        [⟨s.nextId, "admin", ⟨s.saltCtr, "admin123"⟩, "admin",
          "admin@example.com", "Admin", "User", true⟩,
         ⟨s.nextId + 1, "driver1", ⟨s.saltCtr + 1, "driver123"⟩, "driver",
          "driver1@example.com", "John", "Driver", true⟩,
         ⟨s.nextId + 2, "customer1", ⟨s.saltCtr + 2, "customer123"⟩, "customer",
          "customer1@example.com", "Jane", "Customer", true⟩,
         ⟨s.nextId + 3, "dispatcher1", ⟨s.saltCtr + 3, "dispatch123"⟩, "dispatcher",
          "dispatcher1@example.com", "Mike", "Dispatcher", true⟩,
         ⟨s.nextId + 4, "support1", ⟨s.saltCtr + 4, "support123"⟩, "support",
          "support1@example.com", "Sarah", "Support", true⟩],
        s.nextId + 5, s.saltCtr + 5⟩, SeedOutcome.completed true) := by
  simp [seedUsers, checkUsersTable, ht, roster5, seedOne]

/-- C7: the manual seed with force against a populated table rewrites every
roster account: afterwards each roster account names a row of the store whose
username and email are the roster values, whose stored hash verifies the
roster plaintext, and whose stored hash differs from every hash stored before
the run, so no pre-force hash remains in the account row; the run reports
completion.  The freshness hypothesis is the model invariant that every
stored hash was minted before the current salt counter. -/
theorem C7_seed_force_rewrites (s : DbState) (ht : s.tableExists = true)
    (_hrows : 0 < s.rows.length)
    (hfresh : ∀ r ∈ s.rows, r.password_hash.salt < s.saltCtr) :
    (∀ u ∈ roster5, ∃ r, r ∈ (seedUsers true s).1.rows ∧
      r.username = u.username ∧ r.email = u.email ∧
      bcryptCompareStr u.password r.password_hash = true ∧
      ∀ old ∈ s.rows, r.password_hash ≠ old.password_hash) ∧
    (seedUsers true s).2 = SeedOutcome.completed true := by
  rw [seedUsers_force_shape s ht]
  refine ⟨?_, rfl⟩
  intro u hu
  simp only [roster5, List.mem_cons, List.not_mem_nil, or_false] at hu
  rcases hu with rfl | rfl | rfl | rfl | rfl
  · refine ⟨⟨s.nextId, "admin", ⟨s.saltCtr, "admin123"⟩, "admin",
      "admin@example.com", "Admin", "User", true⟩, by simp, rfl, rfl, by simp [ bcryptCompareStr], ?_⟩
    exact fun old hold => BcryptHash.ne_of_salt_ne
      (by have := hfresh old hold; show s.saltCtr ≠ old.password_hash.salt; omega)
  · refine ⟨⟨s.nextId + 1, "driver1", ⟨s.saltCtr + 1, "driver123"⟩, "driver",
      "driver1@example.com", "John", "Driver", true⟩, by simp, rfl, rfl, by simp [ bcryptCompareStr], ?_⟩
    exact fun old hold => BcryptHash.ne_of_salt_ne
      (by have := hfresh old hold; show s.saltCtr + 1 ≠ old.password_hash.salt; omega)
  · refine ⟨⟨s.nextId + 2, "customer1", ⟨s.saltCtr + 2, "customer123"⟩, "customer",
      "customer1@example.com", "Jane", "Customer", true⟩, by simp, rfl, rfl, by simp [ bcryptCompareStr], ?_⟩
    exact fun old hold => BcryptHash.ne_of_salt_ne
      (by have := hfresh old hold; show s.saltCtr + 2 ≠ old.password_hash.salt; omega)
  · refine ⟨⟨s.nextId + 3, "dispatcher1", ⟨s.saltCtr + 3, "dispatch123"⟩, "dispatcher",
      "dispatcher1@example.com", "Mike", "Dispatcher", true⟩, by simp, rfl, rfl, by simp [ bcryptCompareStr], ?_⟩
    exact fun old hold => BcryptHash.ne_of_salt_ne
      (by have := hfresh old hold; show s.saltCtr + 3 ≠ old.password_hash.salt; omega)
  · refine ⟨⟨s.nextId + 4, "support1", ⟨s.saltCtr + 4, "support123"⟩, "support",
      "support1@example.com", "Sarah", "Support", true⟩, by simp, rfl, rfl, by simp [ bcryptCompareStr], ?_⟩
    exact fun old hold => BcryptHash.ne_of_salt_ne
      (by have := hfresh old hold; show s.saltCtr + 4 ≠ old.password_hash.salt; omega)

/-- C7 witness: a populated store forced through the seed carries the admin
roster account with a hash that verifies the roster plaintext and differs
from the pre-force hash. -/
theorem C7_witness :
    ∃ r, r ∈ (seedUsers true
      ⟨true, [⟨1, "oldadmin", ⟨0, "oldpassword"⟩, "admin", "old@example.com",
        "Old", "Admin", true⟩], 2, 1⟩).1.rows ∧
      r.username = "admin" ∧ r.email = "admin@example.com" ∧
      bcryptCompareStr "admin123" r.password_hash = true ∧
      ∀ old ∈ [(⟨1, "oldadmin", ⟨0, "oldpassword"⟩, "admin", "old@example.com",
        "Old", "Admin", true⟩ : UserRow)], r.password_hash ≠ old.password_hash :=
  (C7_seed_force_rewrites
    ⟨true, [⟨1, "oldadmin", ⟨0, "oldpassword"⟩, "admin", "old@example.com",
      "Old", "Admin", true⟩], 2, 1⟩ rfl (by decide) (by decide)).1
    ⟨"admin", "admin123", "admin", "admin@example.com", "Admin", "User"⟩ (by decide)

/-- A fresh seed from an empty store inserts the three roster accounts with
consecutive fresh ids and fresh salts. -/
theorem seedInitialUsersState_empty (s : DbState) (h : s.rows = []) :
    seedInitialUsersState s =
      ⟨s.tableExists,
       [⟨s.nextId, "admin", ⟨s.saltCtr, "admin123"⟩, "admin",
         "admin@example.com", "Admin", "User", true⟩,
        ⟨s.nextId + 1, "driver1", ⟨s.saltCtr + 1, "driver123"⟩, "driver",
         "driver1@example.com", "John", "Driver", true⟩,
        ⟨s.nextId + 2, "customer1", ⟨s.saltCtr + 2, "customer123"⟩, "customer",
         "customer1@example.com", "Jane", "Customer", true⟩],
       s.nextId + 3, s.saltCtr + 3⟩ := by
  simp [seedInitialUsersState, roster3, upsertRoster, h]

/-- C6: after a fresh seed from an empty store, every roster account has a
row storing the bcrypt hash of its plaintext, login through the credential
flow with that plaintext succeeds and returns the signed token and the
public-safe subset of the row, and the token decoded under the shared secret
carries a role claim equal to the seeded role. -/
theorem C6_seed_login_roundtrip (s : DbState) (secret : String)
    (h : s.rows = []) (u : RosterUser) (hu : u ∈ roster3) :
    ∃ r, r ∈ (seedInitialUsersState s).rows ∧
      r.username = u.username ∧ r.role = u.role ∧
      bcryptCompareStr u.password r.password_hash = true ∧
      login bcryptCompare secret (seedInitialUsersState s).rows
        (JsVal.str u.username) (JsVal.str u.password) =
        LoginResult.success (generateToken secret r) (publicOf r) ∧
      jwtVerifyDecode secret (generateToken secret r) =
        some ⟨r.id, r.username, r.role, r.email⟩ := by
  rw [seedInitialUsersState_empty s h]
  simp only [roster3, List.mem_cons, List.not_mem_nil, or_false] at hu
  rcases hu with rfl | rfl | rfl
  · refine ⟨⟨s.nextId, "admin", ⟨s.saltCtr, "admin123"⟩, "admin",
      "admin@example.com", "Admin", "User", true⟩, by simp, rfl, rfl,
      by simp [ bcryptCompareStr], ?_, ?_⟩
    · simp [login, JsVal.truthy, lookupByIdentifier, jsParamMatchesText,
        bcryptCompare, bcryptCompareStr]
    · simp [jwtVerifyDecode, generateToken, jwtSign]
  · refine ⟨⟨s.nextId + 1, "driver1", ⟨s.saltCtr + 1, "driver123"⟩, "driver",
      "driver1@example.com", "John", "Driver", true⟩, by simp, rfl, rfl,
      by simp [ bcryptCompareStr], ?_, ?_⟩
    · simp [login, JsVal.truthy, lookupByIdentifier, jsParamMatchesText,
        bcryptCompare, bcryptCompareStr]
    · simp [jwtVerifyDecode, generateToken, jwtSign]
  · refine ⟨⟨s.nextId + 2, "customer1", ⟨s.saltCtr + 2, "customer123"⟩, "customer",
      "customer1@example.com", "Jane", "Customer", true⟩, by simp, rfl, rfl,
      by simp [ bcryptCompareStr], ?_, ?_⟩
    · simp [login, JsVal.truthy, lookupByIdentifier, jsParamMatchesText,
        bcryptCompare, bcryptCompareStr]
    · simp [jwtVerifyDecode, generateToken, jwtSign]

/-- C6 witness: the admin roster account round-trips from a concrete empty
store. -/
theorem C6_witness :
    ∃ r, r ∈ (seedInitialUsersState ⟨true, [], 1, 0⟩).rows ∧
      r.username = "admin" ∧ r.role = "admin" ∧
      bcryptCompareStr "admin123" r.password_hash = true ∧
      login bcryptCompare "secret" (seedInitialUsersState ⟨true, [], 1, 0⟩).rows
        (JsVal.str "admin") (JsVal.str "admin123") =
        LoginResult.success (generateToken "secret" r) (publicOf r) ∧
      jwtVerifyDecode "secret" (generateToken "secret" r) =
        some ⟨r.id, r.username, r.role, r.email⟩ :=
  C6_seed_login_roundtrip ⟨true, [], 1, 0⟩ "secret" rfl
    ⟨"admin", "admin123", "admin", "admin@example.com", "Admin", "User"⟩ (by decide)
